import Mathlib

/-!
Verification of the `first` package (files `first/authdb.py` and
`first/twitch_eventsub.py`) against its natural-language specification.

The development shallowly embeds the two modules:

* `first/authdb.py` — the SQLite-backed credential store `TwitchAuthDb` and
  the token provider `TwitchAuthDbUserTokenProvider`.  The database table
  `twitch_tokens` (one row per `user_id`, enforced by the `UNIQUE`
  constraint) is modelled as an association list from user ids to rows; the
  SQL statements and the `UPDATE_DT` trigger are translated statement by
  statement.  `CURRENT_TIMESTAMP` is modelled as an explicit `now : Nat`
  parameter supplied to each operation.  Python exceptions become explicit
  error values of type `AuthDbError`.

* `first/twitch_eventsub.py` — the background-threaded WebSocket client
  `TwitchEventSubWebSocketThread`.  The mutable fields protected by the lock
  become a `ManagerState`; the background loop `_run_thread` /
  `_maybe_create_client` / `_handle_client` becomes a trace-producing
  function `runThread` over a script of connection episodes describing the
  environment (stop-flag observations, inbound messages, closure kind).
-/

/-! ## first/authdb.py : data model -/

/-- One row of the `twitch_tokens` table:
`user_id UNIQUE, access_token, refresh_token, created_at, updated_at`.
The `user_id` column is the association-list key; timestamps are `Nat`
(both columns have `DEFAULT CURRENT_TIMESTAMP`, so they are never NULL
for rows produced by this module's statements). -/
structure TokenRow where
  access_token : String
  refresh_token : String
  created_at : Nat
  updated_at : Nat
deriving Repr, DecidableEq

/-- The `twitch_tokens` table: a list of rows keyed by `user_id`.
The `UNIQUE` constraint means well-formed states have at most one entry
per key; the operations below preserve this. -/
abbrev AuthDbState := List (String × TokenRow)

/-- Python exceptions raised by `TwitchAuthDb` methods. -/
inductive AuthDbError where
  /-- `first.errors.UserNotFoundError`, raised by `get_access_token` and
  `get_refresh_token` when `fetchone()` returns `None`. -/
  | userNotFound
  /-- The `TypeError` Python raises at `created_at, = result.fetchone()`
  (and the same line in `get_updated_at_time`) when `fetchone()` returns
  `None`: NoneType cannot be unpacked.  Distinct from `userNotFound`. -/
  | unpackNoneTypeError
deriving Repr, DecidableEq

/-- `SELECT ... FROM twitch_tokens WHERE user_id = :user_id` followed by
`fetchone()`: the row for `user_id`, if any. -/
def lookupUser (db : AuthDbState) (user_id : String) : Option TokenRow :=
  (db.find? (fun p => p.1 == user_id)).map Prod.snd

/-- `TwitchAuthDb.update_or_create_user` (authdb.py lines 89-108).
Embeds `INSERT INTO twitch_tokens (user_id, access_token, refresh_token)
VALUES (...) ON CONFLICT (user_id) DO UPDATE SET access_token = :access_token,
refresh_token = :refresh_token`, together with the `UPDATE_DT` trigger
created in `__init__` (lines 75-84): `AFTER UPDATE ... WHEN OLD.updated_at =
NEW.updated_at OR OLD.updated_at IS NULL` set `updated_at = CURRENT_TIMESTAMP`.
`now` is the value of `CURRENT_TIMESTAMP` during this call; on insert both
timestamp columns take their `DEFAULT CURRENT_TIMESTAMP`. -/
def update_or_create_user (db : AuthDbState) (user_id access_token refresh_token : String)
    (now : Nat) : AuthDbState :=
  match lookupUser db user_id with
  | none =>
      db ++ [(user_id, ⟨access_token, refresh_token, now, now⟩)]
  | some oldRow =>
      let updatedRow : TokenRow :=
        { oldRow with access_token := access_token, refresh_token := refresh_token }
      let newRow : TokenRow :=
        if oldRow.updated_at = updatedRow.updated_at then
          { updatedRow with updated_at := now }
        else updatedRow
      db.map (fun p => if p.1 == user_id then (user_id, newRow) else p)

/-- `TwitchAuthDb.get_access_token` (authdb.py lines 110-121): point lookup;
`raise UserNotFoundError` when `fetchone()` is `None`. -/
def get_access_token (db : AuthDbState) (user_id : String) : Except AuthDbError String :=
  match lookupUser db user_id with
  | none => .error .userNotFound
  | some row => .ok row.access_token

/-- `TwitchAuthDb.get_refresh_token` (authdb.py lines 123-134). -/
def get_refresh_token (db : AuthDbState) (user_id : String) : Except AuthDbError String :=
  match lookupUser db user_id with
  | none => .error .userNotFound
  | some row => .ok row.refresh_token

/-- `TwitchAuthDb.get_created_at_time` (authdb.py lines 149-158).
The source does `created_at, = result.fetchone()` without a `None` check,
so a missing row raises Python's unpacking `TypeError`, not
`UserNotFoundError`. -/
def get_created_at_time (db : AuthDbState) (user_id : String) : Except AuthDbError Nat :=
  match lookupUser db user_id with
  | none => .error .unpackNoneTypeError
  | some row => .ok row.created_at

/-- `TwitchAuthDb.get_updated_at_time` (authdb.py lines 160-169); same
missing-row behaviour as `get_created_at_time`. -/
def get_updated_at_time (db : AuthDbState) (user_id : String) : Except AuthDbError Nat :=
  match lookupUser db user_id with
  | none => .error .unpackNoneTypeError
  | some row => .ok row.updated_at

/-- Number of table rows whose `user_id` column equals `user_id`. -/
def userRowCount (db : AuthDbState) (user_id : String) : Nat :=
  db.countP (fun p => p.1 == user_id)

/-- `TwitchAuthDbUserTokenProvider.refresh_access_token` (authdb.py lines
32-39): reads the stored refresh token, calls the external
`Twitch().refresh_auth_token`, persists the returned pair through
`update_or_create_user`, and returns the new access token.  The external
call is the parameter `refresh_auth_token` (result or opaque error `ε`);
the returned pair is the call's result paired with the store state after
the call (unchanged on any error). -/
def refresh_access_token {ε : Type} (refresh_auth_token : String → Except ε (String × String))
    (db : AuthDbState) (user_id : String) (now : Nat) :
    Except (AuthDbError ⊕ ε) String × AuthDbState :=
  match get_refresh_token db user_id with
  | .error e => (.error (.inl e), db)
  | .ok storedRefresh =>
      match refresh_auth_token storedRefresh with
      | .error e => (.error (.inr e), db)
      | .ok (newAccess, newRefresh) =>
          (.ok newAccess, update_or_create_user db user_id newAccess newRefresh now)

/-! ## first/twitch_eventsub.py : data model -/

/-- `TwitchEventSubWebSocketThread._Subscription` (twitch_eventsub.py lines
36-39): a `(type, version, condition)` named tuple.  The opaque `condition`
payload is modelled as a `String`. -/
structure Subscription where
  type : String
  version : String
  condition : String
deriving Repr, DecidableEq

/-- The `transport` dict built in `_handle_json_message`:
`{"method": "websocket", "session_id": session_id}`. -/
structure Transport where
  method : String
  session_id : String
deriving Repr, DecidableEq

/-- The dict passed to `self._twitch.request_eventsub_subscription` in
`_handle_json_message` (twitch_eventsub.py lines 146-154). -/
structure SubscriptionRequest where
  type : String
  version : String
  condition : String
  transport : Transport
deriving Repr, DecidableEq

/-- Python exceptions raised inside `TwitchEventSubWebSocketThread`. -/
inductive EventSubError where
  /-- What `raise NotImplemented("dynamic subscriptions are not yet
  implemented")` in `add_subscription` (line 49) actually raises:
  `NotImplemented` is a non-callable singleton, so evaluating
  `NotImplemented(...)` raises `TypeError: NotImplementedType object is
  not callable`. -/
  | typeErrorNotImplementedNotCallable
  /-- The `NotImplementedError` exception class (the UnsupportedOperation
  class the docstring intends); never produced by the embedded code. -/
  | notImplementedError
  /-- `TypeError: unsupported message type ...` raised by
  `_handle_raw_message` (line 137) for a non-`str` payload. -/
  | typeErrorUnsupportedMessage
  /-- `KeyError` from `message['payload']['session']['id']` (line 142)
  when a `session_welcome` message carries no session id. -/
  | keyErrorSession
  /-- Failure of an `assert` statement. -/
  | assertionError
deriving Repr, DecidableEq

/-- The decoded form of a textual frame, as accessed by
`_handle_json_message`: `message["metadata"]["message_type"]` and, when
present, `message["payload"]["session"]["id"]`. -/
structure EventSubMessage where
  message_type : String
  session_id : Option String
deriving Repr, DecidableEq

/-- An inbound WebSocket frame as received by `client.recv()`: either a
textual frame (whose JSON decoding is `msg`; JSON parse errors are an open
gap in the source, line 134, and are outside this model) or a binary one. -/
inductive WsMessage where
  | text (msg : EventSubMessage)
  | binary
deriving Repr, DecidableEq

/-- `TwitchEventSubWebSocketThread._handle_json_message` (twitch_eventsub.py
lines 139-154): on a `session_welcome` message, one
`request_eventsub_subscription` call per registered subscription, in list
order, each carrying the subscription's fields plus
`{"method": "websocket", "session_id": session_id}`; all other message
types produce no calls.  The result is the ordered list of issued calls. -/
def handle_json_message (subscriptions : List Subscription) (message : EventSubMessage) :
    Except EventSubError (List SubscriptionRequest) :=
  if message.message_type = "session_welcome" then
    match message.session_id with
    | none => .error .keyErrorSession
    | some session_id =>
        .ok (subscriptions.map (fun s =>
          { type := s.type, version := s.version, condition := s.condition,
            transport := { method := "websocket", session_id := session_id } }))
  else
    .ok []

/-- `TwitchEventSubWebSocketThread._handle_raw_message` (twitch_eventsub.py
lines 132-137): textual frames are decoded and dispatched; any other type
raises `TypeError: unsupported message type ...`. -/
def handle_raw_message (subscriptions : List Subscription) (message : WsMessage) :
    Except EventSubError (List SubscriptionRequest) :=
  match message with
  | .text msg => handle_json_message subscriptions msg
  | .binary => .error .typeErrorUnsupportedMessage

/-! ### The manager's lock-protected state and its public operations -/

/-- The mutable fields of `TwitchEventSubWebSocketThread` protected by
`_lock`: `_subscriptions`, `_thread` (split into "was ever assigned" and
"is alive"), `_should_stop`, and `_client` (whether a socket is published). -/
structure ManagerState where
  subscriptions : List Subscription
  /-- `self._thread is not None`: a thread object has been assigned. -/
  thread_started : Bool
  /-- `self._thread.is_alive()`: the background thread has not yet exited. -/
  thread_alive : Bool
  /-- `self._should_stop`. -/
  should_stop : Bool
  /-- `self._client is not None`. -/
  client_published : Bool
deriving Repr, DecidableEq

/-- The state of a freshly constructed `TwitchEventSubWebSocketThread`
(`__init__`, lines 31-34, plus the class-level field defaults). -/
def initialManagerState : ManagerState :=
  { subscriptions := [], thread_started := false, thread_alive := false,
    should_stop := false, client_published := false }

/-- `TwitchEventSubWebSocketThread.add_subscription` (twitch_eventsub.py
lines 41-50): if `self._thread is not None`, executes
`raise NotImplemented(...)` — which raises the `TypeError` described at
`EventSubError.typeErrorNotImplementedNotCallable` — otherwise appends the
descriptor. -/
def add_subscription (s : ManagerState) (type version condition : String) :
    Except EventSubError ManagerState :=
  if s.thread_started then
    .error .typeErrorNotImplementedNotCallable
  else
    .ok { s with subscriptions :=
            s.subscriptions ++ [{ type := type, version := version, condition := condition }] }

/-- `TwitchEventSubWebSocketThread.start_thread` (twitch_eventsub.py lines
52-64): asserts at least one subscription and that no thread is currently
alive, then spawns the background thread. -/
def start_thread (s : ManagerState) : Except EventSubError ManagerState :=
  if s.subscriptions.isEmpty then
    .error .assertionError
  else if s.thread_started && s.thread_alive then
    .error .assertionError
  else
    .ok { s with thread_started := true, thread_alive := true }

/-- `TwitchEventSubWebSocketThread.stop_thread` (twitch_eventsub.py lines
66-85): sets `_should_stop` under the lock, force-closes any published
client, then `thread.join()`s — so on return the background thread has
fully exited, and its `finally` block (lines 95-98) has closed the socket
and reset `_client` to `None`.  The assignment `_thread = ...` is never
cleared, so `thread_started` stays as it was. -/
def stop_thread (s : ManagerState) : ManagerState :=
  { s with should_stop := true, thread_alive := false, client_published := false }

/-! ### The background loop as a trace over environment episodes -/

/-- One observable action of the background thread `_run_thread`. -/
inductive ThreadEvent where
  /-- `websockets.sync.client.connect(...)` was called (a socket opened). -/
  | connectAttempt
  /-- `self._client = client` (line 114): the socket was published. -/
  | publishClient
  /-- `self._client = None` (line 98): the published socket was cleared. -/
  | unpublishClient
  /-- `client.close()` was called on the current socket. -/
  | closeClient
  /-- `self._twitch.request_eventsub_subscription(req)` was issued. -/
  | apiCall (req : SubscriptionRequest)
  /-- `_run_thread` returned normally (the `break` on line 92). -/
  | threadExitClean
  /-- `_run_thread` terminated by an exception propagating out of
  `_handle_raw_message` (nothing in lines 87-137 catches it). -/
  | threadExitException
deriving Repr, DecidableEq

/-- How the receive loop's blocking `client.recv()` finally ends
(twitch_eventsub.py lines 122-129): `ConnectionClosedOK` or
`ConnectionClosedError`.  Both make `_handle_client` return. -/
inductive CloseReason where
  | closedOK
  | closedError
deriving Repr, DecidableEq

/-- The environment's behaviour during one iteration of the `_run_thread`
loop: the value of `_should_stop` observed at the first check in
`_maybe_create_client` (line 103), the value observed at the re-check
after connecting (line 110), the inbound frames delivered by `recv()`
before the connection closes, and how it closes.  `_should_stop` is only
ever set (never cleared), so an observation of `true` persists; episodes
after an exiting one are simply never reached. -/
structure ConnectEpisode where
  stopBeforeAttempt : Bool
  stopDuringConnect : Bool
  messages : List WsMessage
  close : CloseReason
deriving Repr, DecidableEq

/-- The receive loop body of `_handle_client` (lines 119-130) applied to
the frames of one episode: each frame goes through `_handle_raw_message`;
issued API calls are recorded in order; the first frame whose handling
raises aborts the loop (second component `true` = an exception escaped). -/
def processMessages (subscriptions : List Subscription) :
    List WsMessage → List ThreadEvent × Bool
  | [] => ([], false)
  | m :: rest =>
      match handle_raw_message subscriptions m with
      | .error _ => ([], true)
      | .ok reqs =>
          let (events, exc) := processMessages subscriptions rest
          (reqs.map ThreadEvent.apiCall ++ events, exc)

/-- `TwitchEventSubWebSocketThread._run_thread` (lines 87-98) together with
`_maybe_create_client` (lines 100-116) and `_handle_client` (lines
118-130), as the event trace produced while consuming a script of
episodes.  An exhausted script leaves the thread still blocked in its
loop, so the trace simply ends.  Per iteration:
* stop observed before connecting → `_maybe_create_client` returns `None`
  without opening a socket, and the loop breaks;
* stop observed after connecting → the fresh socket is closed, never
  published, and the loop breaks;
* otherwise the socket is published, frames are processed, and on closure
  the `finally` block closes and unpublishes it; an escaped exception
  terminates the thread after that same `finally` block. -/
def runThread (subscriptions : List Subscription) :
    List ConnectEpisode → List ThreadEvent
  | [] => []
  | ep :: rest =>
      if ep.stopBeforeAttempt then
        [.threadExitClean]
      else if ep.stopDuringConnect then
        [.connectAttempt, .closeClient, .threadExitClean]
      else
        let (msgEvents, exc) := processMessages subscriptions ep.messages
        [.connectAttempt, .publishClient] ++ msgEvents ++
          (if exc then
            [.closeClient, .unpublishClient, .threadExitException]
          else
            [.closeClient, .unpublishClient] ++ runThread subscriptions rest)

/-! ## Store lemmas -/

/-- Appending a row for a previously absent `user_id` makes it the lookup
result. -/
theorem lookupUser_append_self (db : AuthDbState) (uid : String) (row : TokenRow)
    (h : lookupUser db uid = none) :
    lookupUser (db ++ [(uid, row)]) uid = some row := by
  induction db with
  | nil => simp [lookupUser, List.find?]
  | cons p rest ih =>
      by_cases hp : p.1 = uid
      · exfalso
        simp [lookupUser, List.find?_cons_of_pos, hp] at h
      · have h' : lookupUser rest uid = none := by
          simpa [lookupUser, List.find?_cons_of_neg, hp] using h
        simpa [lookupUser, List.cons_append, List.find?_cons_of_neg, hp] using
          ih h'

/-- Rewriting every row keyed `uid` to `(uid, newRow)` makes `newRow` the
lookup result, provided some row for `uid` was present. -/
theorem lookupUser_map_update (db : AuthDbState) (uid : String) (newRow : TokenRow)
    (h : (lookupUser db uid).isSome = true) :
    lookupUser (db.map (fun p => if p.1 == uid then (uid, newRow) else p)) uid
      = some newRow := by
  induction db with
  | nil => simp [lookupUser] at h
  | cons p rest ih =>
      by_cases hp : p.1 = uid
      · simp [lookupUser, List.find?, hp]
      · have h' : (lookupUser rest uid).isSome = true := by
          simpa [lookupUser, List.find?_cons_of_neg, hp] using h
        simpa [lookupUser, List.find?_cons_of_neg, hp] using ih h'

/-- A `user_id` that lookup misses has no rows at all. -/
theorem userRowCount_eq_zero (db : AuthDbState) (uid : String)
    (h : lookupUser db uid = none) : userRowCount db uid = 0 := by
  induction db with
  | nil => rfl
  | cons p rest ih =>
      by_cases hp : p.1 = uid
      · exfalso
        simp [lookupUser, List.find?_cons_of_pos, hp] at h
      · have h' : lookupUser rest uid = none := by
          simpa [lookupUser, List.find?_cons_of_neg, hp] using h
        simpa [userRowCount, List.countP_cons, hp] using ih h'

/-- The conflict-update branch rewrites rows in place: row counts per
`user_id` are unchanged. -/
theorem userRowCount_map_update (db : AuthDbState) (uid : String) (newRow : TokenRow) :
    userRowCount (db.map (fun p => if p.1 == uid then (uid, newRow) else p)) uid
      = userRowCount db uid := by
  induction db with
  | nil => rfl
  | cons p rest ih =>
      by_cases hp : p.1 = uid
      · simpa [userRowCount, List.countP_cons, hp] using ih
      · simpa [userRowCount, List.countP_cons, hp] using ih

/-- An upsert for an absent `user_id` takes the plain-`INSERT` path. -/
theorem upsert_fresh (db : AuthDbState) (uid a r : String) (now : Nat)
    (h : lookupUser db uid = none) :
    update_or_create_user db uid a r now = db ++ [(uid, ⟨a, r, now, now⟩)] := by
  simp [update_or_create_user, h]

/-- After a fresh insert, lookup returns the inserted row: both tokens, and
`created_at = updated_at = now` (the columns' `DEFAULT CURRENT_TIMESTAMP`). -/
theorem lookupUser_upsert_fresh (db : AuthDbState) (uid a r : String) (now : Nat)
    (h : lookupUser db uid = none) :
    lookupUser (update_or_create_user db uid a r now) uid = some ⟨a, r, now, now⟩ := by
  rw [upsert_fresh db uid a r now h]
  exact lookupUser_append_self db uid _ h

/-- After an upsert hitting an existing row, lookup returns the row with
both token columns replaced, `created_at` untouched, and — because the
`DO UPDATE` leaves `updated_at` unchanged, satisfying the trigger's
`OLD.updated_at = NEW.updated_at` condition — `updated_at` rewritten to
`now` by the `UPDATE_DT` trigger. -/
theorem lookupUser_upsert_existing (db : AuthDbState) (uid a r : String) (now : Nat)
    (oldRow : TokenRow) (h : lookupUser db uid = some oldRow) :
    lookupUser (update_or_create_user db uid a r now) uid
      = some ⟨a, r, oldRow.created_at, now⟩ := by
  rw [update_or_create_user, h]
  simpa using lookupUser_map_update db uid _ (by simp [h])

/-! ## Receive-loop lemmas -/

/-- Every event the receive loop records while processing frames is an API
call (`request_eventsub_subscription`); it never records connection-state
events. -/
theorem processMessages_events_are_apiCalls (subscriptions : List Subscription)
    (msgs : List WsMessage) :
    ∀ e ∈ (processMessages subscriptions msgs).1, ∃ req, e = ThreadEvent.apiCall req := by
  induction msgs with
  | nil => simp [processMessages]
  | cons m rest ih =>
      cases hm : handle_raw_message subscriptions m with
      | error e => simp [processMessages, hm]
      | ok reqs =>
          rcases hpm : processMessages subscriptions rest with ⟨events, exc⟩
          intro e he
          simp only [processMessages, hm, hpm, List.mem_append] at he
          rcases he with he | he
          · rcases List.mem_map.mp he with ⟨req, _, rfl⟩
            exact ⟨req, rfl⟩
          · have := ih e
            rw [hpm] at this
            exact this he

/-- A binary frame anywhere in the delivered frames makes an exception
escape the receive loop: either an earlier frame's handling already raised,
or the binary frame itself reaches `_handle_raw_message`, whose
`TypeError` is caught nowhere in `_handle_client` or `_run_thread`. -/
theorem processMessages_binary_exc (subscriptions : List Subscription)
    (msgs : List WsMessage) (h : WsMessage.binary ∈ msgs) :
    (processMessages subscriptions msgs).2 = true := by
  induction msgs with
  | nil => cases h
  | cons m rest ih =>
      cases hm : handle_raw_message subscriptions m with
      | error e => simp [processMessages, hm]
      | ok reqs =>
          rcases List.mem_cons.mp h with h1 | h2
      
          · subst h1
            simp [handle_raw_message] at hm
          · rcases hpm : processMessages subscriptions rest with ⟨events, exc⟩
            have hexc := ih h2
            rw [hpm] at hexc
            simp [processMessages, hm, hpm, hexc]

/-! ## Claim theorems : credential store -/

/-- Claim C4: for every `user_id` and every two successive upserts
`(user_id, a1, r1)` then `(user_id, a2, r2)`, a subsequent
`get_access_token` returns `a2` and `get_refresh_token` returns `r2`, and
`get_created_at` returns the timestamp of the first insert unchanged; the
first upsert creates the single record for `user_id` (one more row for it
than before, exactly one in total) and the second overwrites that record's
token fields in place (no row added or removed). -/
theorem upsert_overwrites_tokens_keeps_created_at
    (db : AuthDbState) (uid a1 r1 a2 r2 : String) (t1 t2 : Nat)
    (h : lookupUser db uid = none) :
    get_access_token
        (update_or_create_user (update_or_create_user db uid a1 r1 t1) uid a2 r2 t2) uid
      = .ok a2 ∧
    get_refresh_token
        (update_or_create_user (update_or_create_user db uid a1 r1 t1) uid a2 r2 t2) uid
      = .ok r2 ∧
    get_created_at_time
        (update_or_create_user (update_or_create_user db uid a1 r1 t1) uid a2 r2 t2) uid
      = .ok t1 ∧
    userRowCount (update_or_create_user db uid a1 r1 t1) uid = 1 ∧
    userRowCount
        (update_or_create_user (update_or_create_user db uid a1 r1 t1) uid a2 r2 t2) uid
      = 1 := by
  have h1 : lookupUser (update_or_create_user db uid a1 r1 t1) uid
      = some ⟨a1, r1, t1, t1⟩ := lookupUser_upsert_fresh db uid a1 r1 t1 h
  have h2 : lookupUser
        (update_or_create_user (update_or_create_user db uid a1 r1 t1) uid a2 r2 t2) uid
      = some ⟨a2, r2, t1, t2⟩ :=
    lookupUser_upsert_existing _ uid a2 r2 t2 _ h1
  have hc0 : userRowCount db uid = 0 := userRowCount_eq_zero db uid h
  have hc1 : userRowCount (update_or_create_user db uid a1 r1 t1) uid = 1 := by
    rw [upsert_fresh db uid a1 r1 t1 h]
    unfold userRowCount at hc0 ⊢
    rw [List.countP_append, hc0]
    simp [List.countP_cons]
  have hmap : update_or_create_user (update_or_create_user db uid a1 r1 t1) uid a2 r2 t2
      = (update_or_create_user db uid a1 r1 t1).map
          (fun p => if p.1 == uid then (uid, ⟨a2, r2, t1, t2⟩) else p) := by
    rw [update_or_create_user, h1]
    simp
  refine ⟨?_, ?_, ?_, hc1, ?_⟩
  · simp [get_access_token, h2]
  · simp [get_refresh_token, h2]
  · simp [get_created_at_time, h2]
  · rw [hmap, userRowCount_map_update]
    exact hc1

/-- Claim C4, witness: the two upserts evaluated on the empty store. -/
theorem upsert_overwrites_tokens_keeps_created_at_witness :
    get_access_token
        (update_or_create_user
          (update_or_create_user ([] : AuthDbState) ("7") ("a1") ("r1") 3) ("7") ("a2") ("r2") 8)
        ("7") = .ok ("a2") ∧
    get_refresh_token
        (update_or_create_user
          (update_or_create_user ([] : AuthDbState) ("7") ("a1") ("r1") 3) ("7") ("a2") ("r2") 8)
        ("7") = .ok ("r2") ∧
    get_created_at_time
        (update_or_create_user
          (update_or_create_user ([] : AuthDbState) ("7") ("a1") ("r1") 3) ("7") ("a2") ("r2") 8)
        ("7") = .ok 3 ∧
    userRowCount (update_or_create_user ([] : AuthDbState) ("7") ("a1") ("r1") 3) ("7") = 1 ∧
    userRowCount
        (update_or_create_user
          (update_or_create_user ([] : AuthDbState) ("7") ("a1") ("r1") 3) ("7") ("a2") ("r2") 8)
        ("7") = 1 :=
  upsert_overwrites_tokens_keeps_created_at [] ("7") ("a1") ("r1") ("a2") ("r2") 3 8 rfl

/-- Claim C5: the first insert for a `user_id` sets both `created_at` and
`updated_at` to the insert's `CURRENT_TIMESTAMP`; every later upsert for
the same `user_id` rewrites `updated_at` to its own `CURRENT_TIMESTAMP`
(the `UPDATE_DT` trigger fires because the `DO UPDATE` left `updated_at`
unchanged), so whenever the clock has advanced between the writes
(`t1 < t2`), `get_updated_at` strictly increases across the two upserts. -/
theorem updated_at_advances_on_rewrite
    (db : AuthDbState) (uid a1 r1 a2 r2 : String) (t1 t2 : Nat)
    (h : lookupUser db uid = none) (hlt : t1 < t2) :
    get_created_at_time (update_or_create_user db uid a1 r1 t1) uid = .ok t1 ∧
    get_updated_at_time (update_or_create_user db uid a1 r1 t1) uid = .ok t1 ∧
    get_updated_at_time
        (update_or_create_user (update_or_create_user db uid a1 r1 t1) uid a2 r2 t2) uid
      = .ok t2 ∧
    (∀ u1 u2,
      get_updated_at_time (update_or_create_user db uid a1 r1 t1) uid = .ok u1 →
      get_updated_at_time
          (update_or_create_user (update_or_create_user db uid a1 r1 t1) uid a2 r2 t2) uid
        = .ok u2 →
      u1 < u2) := by
  have h1 : lookupUser (update_or_create_user db uid a1 r1 t1) uid
      = some ⟨a1, r1, t1, t1⟩ := lookupUser_upsert_fresh db uid a1 r1 t1 h
  have h2 : lookupUser
        (update_or_create_user (update_or_create_user db uid a1 r1 t1) uid a2 r2 t2) uid
      = some ⟨a2, r2, t1, t2⟩ :=
    lookupUser_upsert_existing _ uid a2 r2 t2 _ h1
  refine ⟨by simp [get_created_at_time, h1], by simp [get_updated_at_time, h1],
    by simp [get_updated_at_time, h2], ?_⟩
  intro u1 u2 hu1 hu2
  simp only [get_updated_at_time, h1, h2] at hu1 hu2
  cases hu1
  cases hu2
  exact hlt

/-- Claim C5, witness: two upserts at clock values `3` then `8`. -/
theorem updated_at_advances_on_rewrite_witness :
    0 < 1 ∧
    (get_created_at_time
        (update_or_create_user ([] : AuthDbState) ("9") ("aA") ("rA") 3) ("9") = .ok 3 ∧
     get_updated_at_time
        (update_or_create_user ([] : AuthDbState) ("9") ("aA") ("rA") 3) ("9") = .ok 3 ∧
     get_updated_at_time
        (update_or_create_user
          (update_or_create_user ([] : AuthDbState) ("9") ("aA") ("rA") 3) ("9") ("aB") ("rB") 8)
        ("9") = .ok 8 ∧
     (∀ u1 u2,
       get_updated_at_time
          (update_or_create_user ([] : AuthDbState) ("9") ("aA") ("rA") 3) ("9") = .ok u1 →
       get_updated_at_time
          (update_or_create_user
            (update_or_create_user ([] : AuthDbState) ("9") ("aA") ("rA") 3) ("9") ("aB") ("rB") 8)
          ("9") = .ok u2 →
       u1 < u2)) :=
  ⟨Nat.zero_lt_one,
   updated_at_advances_on_rewrite [] ("9") ("aA") ("rA") ("aB") ("rB") 3 8 rfl (by decide)⟩

/-- Claim C6, counterexample: on the empty store (user `12345` absent),
`get_created_at_time` does not fail with `UserNotFound` — the source
unpacks `fetchone()`'s `None` directly, raising a `TypeError` instead. -/
theorem created_at_missing_user_not_userNotFound :
    get_created_at_time ([] : AuthDbState) ("12345")
      = .error AuthDbError.unpackNoneTypeError ∧
    get_created_at_time ([] : AuthDbState) ("12345")
      ≠ .error AuthDbError.userNotFound := by
  refine ⟨rfl, ?_⟩
  intro hcontra
  exact absurd (Except.error.inj hcontra) (by decide)

/-- Claim C6, amended: on a `user_id` with no stored record,
`get_access_token` and `get_refresh_token` fail with `UserNotFound`, while
`get_created_at` fails with the `None`-unpacking `TypeError`, not
`UserNotFound`. -/
theorem missing_user_error_behaviour (db : AuthDbState) (uid : String)
    (h : lookupUser db uid = none) :
    get_access_token db uid = .error AuthDbError.userNotFound ∧
    get_refresh_token db uid = .error AuthDbError.userNotFound ∧
    get_created_at_time db uid = .error AuthDbError.unpackNoneTypeError ∧
    get_created_at_time db uid ≠ .error AuthDbError.userNotFound := by
  refine ⟨by simp [get_access_token, h], by simp [get_refresh_token, h],
    by simp [get_created_at_time, h], ?_⟩
  intro hcontra
  rw [get_created_at_time, h] at hcontra
  exact absurd (Except.error.inj hcontra) (by decide)

/-- Claim C6, witness: the amended behaviour on a store holding only user
`42`, queried for the absent user `43`. -/
theorem missing_user_error_behaviour_witness :
    get_access_token [(("42" : String), (⟨"a", "r", 1, 1⟩ : TokenRow))] ("43")
      = .error AuthDbError.userNotFound ∧
    get_refresh_token [(("42" : String), (⟨"a", "r", 1, 1⟩ : TokenRow))] ("43")
      = .error AuthDbError.userNotFound ∧
    get_created_at_time [(("42" : String), (⟨"a", "r", 1, 1⟩ : TokenRow))] ("43")
      = .error AuthDbError.unpackNoneTypeError ∧
    get_created_at_time [(("42" : String), (⟨"a", "r", 1, 1⟩ : TokenRow))] ("43")
      ≠ .error AuthDbError.userNotFound :=
  missing_user_error_behaviour [(("42" : String), ⟨"a", "r", 1, 1⟩)] ("43") (by decide)

/-- Claim C1: for a user with a stored record,
`TwitchAuthDbUserTokenProvider.refresh_access_token` invokes the external
refresh endpoint on exactly the currently stored refresh token; if that
call fails, the store is returned unchanged and the error propagates
unchanged (wrapped only by position, no partial update); if it succeeds,
both returned tokens are persisted by the single
`update_or_create_user` upsert before the new access token is returned,
and both are subsequently readable from the store. -/
theorem refresh_access_token_atomic {ε : Type}
    (refresh_auth_token : String → Except ε (String × String))
    (db : AuthDbState) (uid : String) (now : Nat) (storedRefresh : String)
    (hstored : get_refresh_token db uid = .ok storedRefresh) :
    (∀ e, refresh_auth_token storedRefresh = .error e →
        refresh_access_token refresh_auth_token db uid now = (.error (.inr e), db)) ∧
    (∀ newAccess newRefresh,
        refresh_auth_token storedRefresh = .ok (newAccess, newRefresh) →
        refresh_access_token refresh_auth_token db uid now
          = (.ok newAccess, update_or_create_user db uid newAccess newRefresh now) ∧
        get_access_token (refresh_access_token refresh_auth_token db uid now).2 uid
          = .ok newAccess ∧
        get_refresh_token (refresh_access_token refresh_auth_token db uid now).2 uid
          = .ok newRefresh) := by
  have hsome : ∃ row, lookupUser db uid = some row := by
    cases hlk : lookupUser db uid with
    | none => rw [get_refresh_token, hlk] at hstored; cases hstored
    | some row => exact ⟨row, rfl⟩
  rcases hsome with ⟨row, hrow⟩
  constructor
  · intro e hcall
    rw [refresh_access_token, hstored]
    simp [hcall]
  · intro newAccess newRefresh hcall
    have heq : refresh_access_token refresh_auth_token db uid now
        = (.ok newAccess, update_or_create_user db uid newAccess newRefresh now) := by
      rw [refresh_access_token, hstored]
      simp [hcall]
    have hlk2 : lookupUser (update_or_create_user db uid newAccess newRefresh now) uid
        = some ⟨newAccess, newRefresh, row.created_at, now⟩ :=
      lookupUser_upsert_existing db uid newAccess newRefresh now row hrow
    refine ⟨heq, ?_, ?_⟩
    · rw [heq]
      simp [get_access_token, hlk2]
    · rw [heq]
      simp [get_refresh_token, hlk2]

/-- Claim C1, witness: both branches evaluated on a one-row store — a
failing external call leaves the store unchanged and surfaces the error; a
succeeding one persists and returns the fresh pair. -/
theorem refresh_access_token_atomic_witness :
    refresh_access_token (fun _ => (.error ("boom") : Except String (String × String)))
        [(("7" : String), (⟨"a0", "r0", 5, 5⟩ : TokenRow))] ("7") 9
      = (.error (.inr ("boom")), [(("7" : String), (⟨"a0", "r0", 5, 5⟩ : TokenRow))]) ∧
    get_access_token
        (refresh_access_token (fun _ => (.ok ("a1", "r1") : Except String (String × String)))
          [(("7" : String), (⟨"a0", "r0", 5, 5⟩ : TokenRow))] ("7") 9).2 ("7")
      = .ok ("a1") ∧
    get_refresh_token
        (refresh_access_token (fun _ => (.ok ("a1", "r1") : Except String (String × String)))
          [(("7" : String), (⟨"a0", "r0", 5, 5⟩ : TokenRow))] ("7") 9).2 ("7")
      = .ok ("r1") :=
  ⟨(refresh_access_token_atomic (fun _ => (.error ("boom") : Except String (String × String)))
      [(("7" : String), (⟨"a0", "r0", 5, 5⟩ : TokenRow))] ("7") 9 ("r0") rfl).1 ("boom") rfl,
   ((refresh_access_token_atomic (fun _ => (.ok ("a1", "r1") : Except String (String × String)))
      [(("7" : String), (⟨"a0", "r0", 5, 5⟩ : TokenRow))] ("7") 9 ("r0") rfl).2
      ("a1") ("r1") rfl).2.1,
   ((refresh_access_token_atomic (fun _ => (.ok ("a1", "r1") : Except String (String × String)))
      [(("7" : String), (⟨"a0", "r0", 5, 5⟩ : TokenRow))] ("7") 9 ("r0") rfl).2
      ("a1") ("r1") rfl).2.2⟩

/-! ## Claim theorems : event-stream connection manager -/

/-- Claim C2: handling a decoded message tagged `session_welcome` carrying
session id `S` issues exactly one subscription-creation call per
registered subscription, in registration order — each with that
subscription's `type`, `version` and `condition` and the transport
`{method: websocket, session_id: S}` — and their number equals the number
of registered subscriptions. -/
theorem welcome_creates_one_call_per_subscription
    (subscriptions : List Subscription) (S : String) :
    handle_json_message subscriptions ⟨"session_welcome", some S⟩
      = .ok (subscriptions.map (fun s =>
          { type := s.type, version := s.version, condition := s.condition,
            transport := { method := "websocket", session_id := S } })) ∧
    (subscriptions.map (fun s =>
        ({ type := s.type, version := s.version, condition := s.condition,
           transport := { method := "websocket", session_id := S } } :
          SubscriptionRequest))).length
      = subscriptions.length := by
  exact ⟨by simp [handle_json_message], List.length_map subscriptions _⟩

/-- Claim C8 (evaluation at the failing input): `add_subscription` before
any `start_thread` is accepted and appends the descriptor; `start_thread`
then succeeds; a subsequent `add_subscription` fails — but with the
`TypeError` from calling the non-callable `NotImplemented` singleton, not
with the `NotImplementedError` (UnsupportedOperation-class, "dynamic
subscriptions are not yet implemented") the docstring intends: the
`raise NotImplemented(...)` on line 49 is a slip for
`raise NotImplementedError(...)`. -/
theorem add_subscription_after_start_raises_wrong_type :
    add_subscription initialManagerState ("channel.follow") ("1") ("c1")
      = .ok { initialManagerState with
                subscriptions := [⟨"channel.follow", "1", "c1"⟩] } ∧
    start_thread { initialManagerState with
                     subscriptions := [⟨"channel.follow", "1", "c1"⟩] }
      = .ok { initialManagerState with
                subscriptions := [⟨"channel.follow", "1", "c1"⟩],
                thread_started := true, thread_alive := true } ∧
    add_subscription
        { initialManagerState with
            subscriptions := [⟨"channel.follow", "1", "c1"⟩],
            thread_started := true, thread_alive := true }
        ("channel.update") ("2") ("c2")
      = .error EventSubError.typeErrorNotImplementedNotCallable ∧
    EventSubError.typeErrorNotImplementedNotCallable ≠ EventSubError.notImplementedError := by
  refine ⟨rfl, rfl, rfl, by decide⟩

/-- Claim C3: `stop_thread` sets the stop flag and returns only after the
background thread has exited (post-state: not alive, no published client);
a connect attempt that observes the stop flag before connecting opens no
socket and exits the loop; one that observes it only after connecting
closes the fresh socket without ever publishing it and exits the loop. -/
theorem stop_prevents_publish_and_joins
    (s : ManagerState) (subscriptions : List Subscription)
    (ep1 ep2 : ConnectEpisode) (rest1 rest2 : List ConnectEpisode)
    (h1 : ep1.stopBeforeAttempt = true)
    (h2 : ep2.stopBeforeAttempt = false) (h3 : ep2.stopDuringConnect = true) :
    (stop_thread s).should_stop = true ∧
    (stop_thread s).thread_alive = false ∧
    (stop_thread s).client_published = false ∧
    runThread subscriptions (ep1 :: rest1) = [.threadExitClean] ∧
    ThreadEvent.connectAttempt ∉ runThread subscriptions (ep1 :: rest1) ∧
    runThread subscriptions (ep2 :: rest2)
      = [.connectAttempt, .closeClient, .threadExitClean] ∧
    ThreadEvent.publishClient ∉ runThread subscriptions (ep2 :: rest2) := by
  refine ⟨rfl, rfl, rfl, ?_, ?_, ?_, ?_⟩ <;>
    simp [runThread, h1, h2, h3]

/-- Claim C3, witness: a stop observed before the attempt, and one observed
mid-connect. -/
theorem stop_prevents_publish_and_joins_witness :
    (stop_thread initialManagerState).should_stop = true ∧
    (stop_thread initialManagerState).thread_alive = false ∧
    (stop_thread initialManagerState).client_published = false ∧
    runThread [] [⟨true, false, [], CloseReason.closedOK⟩] = [.threadExitClean] ∧
    ThreadEvent.connectAttempt ∉ runThread [] [⟨true, false, [], CloseReason.closedOK⟩] ∧
    runThread [] [⟨false, true, [], CloseReason.closedOK⟩]
      = [.connectAttempt, .closeClient, .threadExitClean] ∧
    ThreadEvent.publishClient ∉ runThread [] [⟨false, true, [], CloseReason.closedOK⟩] :=
  stop_prevents_publish_and_joins initialManagerState []
    ⟨true, false, [], CloseReason.closedOK⟩ ⟨false, true, [], CloseReason.closedOK⟩
    [] [] rfl rfl rfl

/-- Claim C7, counterexample: with one registered subscription, a
connection that delivers a single binary frame produces the trace
connect, publish, close, unpublish, thread-exit-by-exception — the
receive loop does not survive the frame, no further connect attempt is
made even though another episode follows, and the background thread
terminates with the propagating `TypeError`. -/
theorem binary_message_kills_thread_concrete :
    runThread [⟨"channel.follow", "1", "c1"⟩]
        [⟨false, false, [WsMessage.binary], CloseReason.closedOK⟩,
         ⟨false, false, [], CloseReason.closedOK⟩]
      = [.connectAttempt, .publishClient, .closeClient, .unpublishClient,
         .threadExitException] ∧
    (runThread [⟨"channel.follow", "1", "c1"⟩]
        [⟨false, false, [WsMessage.binary], CloseReason.closedOK⟩,
         ⟨false, false, [], CloseReason.closedOK⟩]).count ThreadEvent.connectAttempt = 1 ∧
    ThreadEvent.threadExitException ∈
      runThread [⟨"channel.follow", "1", "c1"⟩]
        [⟨false, false, [WsMessage.binary], CloseReason.closedOK⟩,
         ⟨false, false, [], CloseReason.closedOK⟩] := by
  refine ⟨rfl, rfl, by decide⟩

/-- Claim C7, amended: a non-textual (binary) inbound frame makes
`_handle_raw_message` fail with the unsupported-message-type `TypeError`,
but the failure is not confined to the current message: nothing catches
it, so the receive loop aborts, the socket is closed and unpublished by
the `finally` block, the background thread terminates with the exception,
and no further connect attempt occurs. -/
theorem binary_message_fails_and_terminates_thread
    (subscriptions : List Subscription) (ep : ConnectEpisode)
    (rest : List ConnectEpisode)
    (h1 : ep.stopBeforeAttempt = false) (h2 : ep.stopDuringConnect = false)
    (hbin : WsMessage.binary ∈ ep.messages) :
    handle_raw_message subscriptions WsMessage.binary
      = .error EventSubError.typeErrorUnsupportedMessage ∧
    runThread subscriptions (ep :: rest)
      = [.connectAttempt, .publishClient]
          ++ (processMessages subscriptions ep.messages).1
          ++ [.closeClient, .unpublishClient, .threadExitException] ∧
    ThreadEvent.connectAttempt ∉
      ((processMessages subscriptions ep.messages).1
        ++ [.closeClient, .unpublishClient, .threadExitException]) := by
  have hexc := processMessages_binary_exc subscriptions ep.messages hbin
  rcases hpm : processMessages subscriptions ep.messages with ⟨events, exc⟩
  rw [hpm] at hexc
  refine ⟨rfl, ?_, ?_⟩
  · simp only [runThread, h1, h2, Bool.false_eq_true, if_false, hpm, hexc, if_true]
  · intro hmem
    simp only [List.mem_append] at hmem
    rcases hmem with hmem | hmem
    · have := processMessages_events_are_apiCalls subscriptions ep.messages
        ThreadEvent.connectAttempt
      rw [hpm] at this
      rcases this hmem with ⟨req, hreq⟩
      cases hreq
    · simp at hmem

/-- Claim C7, witness: the amended behaviour at the counterexample's
input. -/
theorem binary_message_fails_and_terminates_thread_witness :
    handle_raw_message [(⟨"channel.follow", "1", "c1"⟩ : Subscription)] WsMessage.binary
      = .error EventSubError.typeErrorUnsupportedMessage ∧
    runThread [⟨"channel.follow", "1", "c1"⟩]
        [⟨false, false, [WsMessage.binary], CloseReason.closedOK⟩]
      = [.connectAttempt, .publishClient]
          ++ (processMessages [⟨"channel.follow", "1", "c1"⟩] [WsMessage.binary]).1
          ++ [.closeClient, .unpublishClient, .threadExitException] ∧
    ThreadEvent.connectAttempt ∉
      ((processMessages [⟨"channel.follow", "1", "c1"⟩] [WsMessage.binary]).1
        ++ [.closeClient, .unpublishClient, .threadExitException]) :=
  binary_message_fails_and_terminates_thread [⟨"channel.follow", "1", "c1"⟩]
    ⟨false, false, [WsMessage.binary], CloseReason.closedOK⟩ [] rfl rfl
    (List.mem_singleton.mpr rfl)

/-- The receive loop records no thread-exit event while processing frames. -/
theorem processMessages_no_exit_events (subscriptions : List Subscription)
    (msgs : List WsMessage) :
    ThreadEvent.threadExitClean ∉ (processMessages subscriptions msgs).1 ∧
    ThreadEvent.threadExitException ∉ (processMessages subscriptions msgs).1 := by
  constructor <;> intro hmem <;>
    rcases processMessages_events_are_apiCalls subscriptions msgs _ hmem with ⟨req, hreq⟩ <;>
    cases hreq

/-- Claim C9: while no stop has been requested, a connection whose frames
are all handled without an exception and which then closes — cleanly or
with an error, the two closure kinds producing identical traces — ends
the receive loop, closes and unpublishes the socket, and hands control
back to the connect loop; no thread-terminating event occurs before the
hand-back, and if a further episode follows with no stop pending, the
very next event is a new connect attempt. -/
theorem clean_closure_reconnects
    (subscriptions : List Subscription) (ep : ConnectEpisode)
    (rest : List ConnectEpisode)
    (h1 : ep.stopBeforeAttempt = false) (h2 : ep.stopDuringConnect = false)
    (hok : (processMessages subscriptions ep.messages).2 = false) :
    runThread subscriptions (ep :: rest)
      = [.connectAttempt, .publishClient]
          ++ (processMessages subscriptions ep.messages).1
          ++ [.closeClient, .unpublishClient] ++ runThread subscriptions rest ∧
    runThread subscriptions ({ ep with close := CloseReason.closedOK } :: rest)
      = runThread subscriptions ({ ep with close := CloseReason.closedError } :: rest) ∧
    ThreadEvent.threadExitClean ∉
      ([ThreadEvent.connectAttempt, ThreadEvent.publishClient]
        ++ (processMessages subscriptions ep.messages).1
        ++ [ThreadEvent.closeClient, ThreadEvent.unpublishClient]) ∧
    ThreadEvent.threadExitException ∉
      ([ThreadEvent.connectAttempt, ThreadEvent.publishClient]
        ++ (processMessages subscriptions ep.messages).1
        ++ [ThreadEvent.closeClient, ThreadEvent.unpublishClient]) ∧
    (∀ ep2 rest2, rest = ep2 :: rest2 → ep2.stopBeforeAttempt = false →
        ∃ tail, runThread subscriptions rest = ThreadEvent.connectAttempt :: tail) := by
  have hnoexit := processMessages_no_exit_events subscriptions ep.messages
  rcases hpm : processMessages subscriptions ep.messages with ⟨events, exc⟩
  rw [hpm] at hok hnoexit
  subst hok
  refine ⟨?_, ?_, ?_, ?_, ?_⟩
  · simp only [runThread, h1, h2, Bool.false_eq_true, if_false, hpm]
    simp
  · simp only [runThread, h1, h2, Bool.false_eq_true, if_false, hpm]
  · simpa using hnoexit.1
  · simpa using hnoexit.2
  · intro ep2 rest2 hrest hstop
    subst hrest
    by_cases hd : ep2.stopDuringConnect
    · exact ⟨[.closeClient, .threadExitClean], by simp [runThread, hstop, hd]⟩
    · rcases hpm2 : processMessages subscriptions ep2.messages with ⟨events2, exc2⟩
      cases exc2
      · exact ⟨[.publishClient] ++ events2
            ++ [.closeClient, .unpublishClient] ++ runThread subscriptions rest2,
          by simp [runThread, hstop, hd, hpm2]⟩
      · exact ⟨[.publishClient] ++ events2
            ++ [.closeClient, .unpublishClient, .threadExitException],
          by simp [runThread, hstop, hd, hpm2]⟩

/-- Claim C9, witness: one subscription, a welcome frame, a clean closure,
then a second connect attempt. -/
theorem clean_closure_reconnects_witness :
    runThread [(⟨"channel.follow", "1", "c1"⟩ : Subscription)]
        [⟨false, false, [WsMessage.text ⟨"session_welcome", some "S1"⟩],
            CloseReason.closedOK⟩,
         ⟨false, false, [], CloseReason.closedOK⟩]
      = [.connectAttempt, .publishClient]
          ++ (processMessages [⟨"channel.follow", "1", "c1"⟩]
                [WsMessage.text ⟨"session_welcome", some "S1"⟩]).1
          ++ [.closeClient, .unpublishClient]
          ++ runThread [⟨"channel.follow", "1", "c1"⟩]
              [⟨false, false, [], CloseReason.closedOK⟩] ∧
    (∃ tail, runThread [(⟨"channel.follow", "1", "c1"⟩ : Subscription)]
        [⟨false, false, [], CloseReason.closedOK⟩]
      = ThreadEvent.connectAttempt :: tail) :=
  ⟨(clean_closure_reconnects [⟨"channel.follow", "1", "c1"⟩]
      ⟨false, false, [WsMessage.text ⟨"session_welcome", some "S1"⟩], CloseReason.closedOK⟩
      [⟨false, false, [], CloseReason.closedOK⟩] rfl rfl (by decide)).1,
   (clean_closure_reconnects [⟨"channel.follow", "1", "c1"⟩]
      ⟨false, false, [WsMessage.text ⟨"session_welcome", some "S1"⟩], CloseReason.closedOK⟩
      [⟨false, false, [], CloseReason.closedOK⟩] rfl rfl (by decide)).2.2.2.2
      ⟨false, false, [], CloseReason.closedOK⟩ [] rfl rfl⟩

/-- Claim C10: `stop_thread` sets the stop flag; no operation of
`TwitchEventSubWebSocketThread` (`add_subscription`, `start_thread`,
`stop_thread`) ever clears it.  `start_thread`'s precondition only checks
that no thread is currently alive, so a second `start_thread` after a
completed stop is accepted and spawns a thread — but that thread's first
connect attempt observes the still-set stop flag (hypothesis `hep`, forced
by the flag's monotonicity) and exits immediately without opening a
socket: the instance is effectively single-use. -/
theorem instance_single_use_after_stop
    (s u : ManagerState) (hsubs : s.subscriptions.isEmpty = false)
    (hu : u.should_stop = true)
    (type version condition : String)
    (ep : ConnectEpisode) (rest : List ConnectEpisode)
    (hep : ep.stopBeforeAttempt = true) :
    (stop_thread s).should_stop = true ∧
    (stop_thread u).should_stop = true ∧
    (∀ t, add_subscription u type version condition = .ok t → t.should_stop = true) ∧
    (∀ t, start_thread u = .ok t → t.should_stop = true) ∧
    start_thread (stop_thread s)
      = .ok { stop_thread s with thread_started := true, thread_alive := true } ∧
    ({ stop_thread s with
         thread_started := true, thread_alive := true } : ManagerState).should_stop
      = true ∧
    runThread s.subscriptions (ep :: rest) = [.threadExitClean] ∧
    ThreadEvent.connectAttempt ∉ runThread s.subscriptions (ep :: rest) := by
  refine ⟨rfl, rfl, ?_, ?_, ?_, rfl, ?_, ?_⟩
  · intro t ht
    rw [add_subscription] at ht
    by_cases hstarted : u.thread_started
    · simp [hstarted] at ht
    · simp only [hstarted, Bool.false_eq_true, if_false, Except.ok.injEq] at ht
      rw [← ht]
      exact hu
  · intro t ht
    rw [start_thread] at ht
    by_cases hempty : u.subscriptions.isEmpty
    · simp [hempty] at ht
    · by_cases halive : u.thread_started && u.thread_alive
      · simp [hempty, halive] at ht
      · simp only [hempty, Bool.false_eq_true, if_false, halive,
          Except.ok.injEq] at ht
        rw [← ht]
        exact hu
  · rw [start_thread]
    simp [stop_thread, hsubs]
  · simp [runThread, hep]
  · simp [runThread, hep]

/-- Claim C10, witness: a manager with one subscription, stopped, then
started again; the new thread's first attempt sees the stop flag. -/
theorem instance_single_use_after_stop_witness :
    (stop_thread { initialManagerState with
        subscriptions := [⟨"channel.follow", "1", "c1"⟩],
        thread_started := true }).should_stop = true ∧
    start_thread (stop_thread { initialManagerState with
        subscriptions := [⟨"channel.follow", "1", "c1"⟩], thread_started := true })
      = .ok { stop_thread { initialManagerState with
                subscriptions := [⟨"channel.follow", "1", "c1"⟩], thread_started := true }
              with thread_started := true, thread_alive := true } ∧
    runThread [(⟨"channel.follow", "1", "c1"⟩ : Subscription)]
        [⟨true, false, [], CloseReason.closedOK⟩] = [.threadExitClean] ∧
    ThreadEvent.connectAttempt ∉
      runThread [(⟨"channel.follow", "1", "c1"⟩ : Subscription)]
        [⟨true, false, [], CloseReason.closedOK⟩] := by
  have h := instance_single_use_after_stop
    { initialManagerState with
        subscriptions := [⟨"channel.follow", "1", "c1"⟩], thread_started := true }
    (stop_thread { initialManagerState with
        subscriptions := [⟨"channel.follow", "1", "c1"⟩], thread_started := true })
    rfl rfl ("channel.update") ("2") ("c2")
    ⟨true, false, [], CloseReason.closedOK⟩ [] rfl
  exact ⟨h.1, h.2.2.2.2.1, h.2.2.2.2.2.2.1, h.2.2.2.2.2.2.2⟩
